import Mathlib

/-!
Verification development for the Keyword Idea Generator single-page app
(`src/index.tsx`).  The page collects five form fields, sends a composed
prompt to a text-generation API, renders the returned markdown as sanitized
HTML, and offers CSV/JSON exports obtained by scraping the rendered DOM.

The embedding below translates the script's pure logic:

* `buildPrompt` — the prompt template (source lines 59-116);
* `setLoading`, `displayError`, `handleFormSubmit` — the UI controller
  (source lines 39-53 and 122-156), with the markdown renderer and the
  sanitizer abstracted as function parameters and the API outcome as an
  explicit input;
* `escapeQuotes`/`escapeCell`/`csvContent` — the CSV cell escaping and
  joining (source lines 210-218), modelled on `List Char`;
* `csvScan`/`collectCSVData`/`exportKeywordsToCSV` — the table scraping of
  the CSV export (source lines 179-221);
* `findPriorityAfter`/`jsonRows`/`exportPriorityKeywordsToJSON` — the JSON
  export (source lines 226-258).

The rendered results container is modelled as the flat list of its child
elements in document order, so `nextElementSibling` is the next list entry.
-/

/-- The tag of a rendered DOM element, as far as the two extractors can
distinguish them: they query for `h4` (CSV path), `h3` (JSON path) and
check `tagName === 'TABLE'`; every other element behaves uniformly. -/
inductive DomTag where
  | h3
  | h4
  | table
  | other
deriving DecidableEq, Repr

/-- A rendered DOM element.  `text` is its `textContent`; for a table,
`headerCells` lists the `innerText` of its `th` cells in order and
`bodyRows` lists, for each `tbody tr`, the `innerText` of its `td` cells.
For non-table elements the two table fields are unused. -/
structure DomElement where
  tag : DomTag
  text : String
  headerCells : List String
  bodyRows : List (List String)
deriving DecidableEq, Repr

/-- Outcome of the `ai.models.generateContent` call: a response whose
`.text` field is an optional string, or a thrown error. -/
inductive ApiOutcome where
  | ok (text : Option String)
  | err
deriving DecidableEq, Repr

/-- Result of an export click: a blocking `alert`, or a triggered file
download with content, file name and MIME type. -/
inductive ExportResult where
  | alerted (message : String)
  | downloaded (content : String) (fileName : String) (mimeType : String)
deriving DecidableEq, Repr

/-- The five form fields read at submit time. -/
structure FormInputs where
  service : String
  url : String
  location : String
  goal : String
  language : String
deriving DecidableEq, Repr

/-- The mutable UI state touched by the controller: the `isLoading` flag,
the generate button, the spinner, the button label, the placeholder, the
results container's innerHTML and the export-controls `hidden` flag. -/
structure UIState where
  isLoading : Bool
  generateBtnDisabled : Bool
  spinnerHidden : Bool
  btnText : String
  placeholderHidden : Bool
  resultsHTML : String
  exportHidden : Bool
deriving DecidableEq, Repr

def generatingLabel : String := "Generating..."

def generateLabel : String := "Generate Keywords"

/-- `setLoading` (source lines 39-44). -/
def setLoading (loading : Bool) (st : UIState) : UIState :=
  { st with
    isLoading := loading
    generateBtnDisabled := loading
    spinnerHidden := !loading
    btnText := if loading then generatingLabel else generateLabel }

def errDivOpen : String := "<div class=\"error-message\">"

def errDivClose : String := "</div>"

/-- The markup `displayError` assigns to the results container. -/
def errorHTML (message : String) : String :=
  errDivOpen ++ (message ++ errDivClose)

/-- `displayError` (source lines 50-53). -/
def displayError (message : String) (st : UIState) : UIState :=
  { st with
    resultsHTML := errorHTML message
    exportHidden := true }

def promptIntro : String := "\nYou are a world-class digital marketer and keyword/SEO specialist. Your task is to generate a comprehensive Google Ads keyword analysis based on the user\x27s inputs.\n\nPlease generate the following based on these inputs:\n- Service(s): "

def promptAfterService : String := "\n- Website URL: "

def promptAfterUrl : String := "\n- Location(s): "

def promptAfterLocation : String := "\n- Campaign Goal: "

def promptAfterGoal : String := "\n- Language(s): "

def promptStructureIntro : String := "\n\nProduce your output in markdown format. Do not include the backticks for the markdown block in your response.\n\nFollow this structure precisely:\n\n### "

def keywordIdeasHeading : String := "Keyword Ideas"

def promptAdGroupSection : String := "\n\nGroup keywords into themed ad groups. For each keyword, provide an estimated monthly search volume for the specified location, the 12-month trend (rising/stable/declining), the competition level (Low/Medium/High), and a suggested CPC bid range.\n\n#### Ad Group: [Theme Name 1]\n| Keyword | Monthly Search Volume | Trend (12 mo) | Competition | Suggested CPC |\n|---|---|---|---|---|\n| keyword example 1 | ~1,200 | stable | Medium | $1.50 - $3.00 |\n| keyword example 2 | ~800 | rising | Low | $0.75 - $1.50 |\n\n#### Ad Group: [Theme Name 2]\n| Keyword | Monthly Search Volume | Trend (12 mo) | Competition | Suggested CPC |\n|---|---|---|---|---|\n| keyword example 3 | ~2,500 | stable | High | $3.50 - $6.00 |\n| keyword example 4 | ~500 | declining | Medium | $1.00 - $2.50 |\n\n\n### "

def priorityKeywordsHeading : String := "Priority Keywords"

def promptPrioritySection : String := "\n\nList the top 5-10 keywords you would recommend starting with, based on a balance of volume, relevance, and competition.\n\n| Priority Keyword | Reason for Prioritization |\n|---|---|\n| keyword example 1 | High purchase intent and good volume. |\n| keyword example 3 | Core service term with high volume. |\n\n\n### "

def negativeKeywordsHeading : String := "Negative Keywords"

def promptNegativeSection : String := "\n\nSuggest a list of negative keywords to exclude irrelevant traffic. Use a simple bulleted list.\n\n- DIY\n- free\n- jobs\n- course\n"

/-- `buildPrompt` (source lines 59-116): the fixed template with the five
form values interpolated.  The template literal is split here into its
constant pieces, parenthesised to the right; its string value is exactly
the source's template. -/
def buildPrompt (inputs : FormInputs) : String :=
  promptIntro ++ (inputs.service ++ (promptAfterService ++ (inputs.url ++
    (promptAfterUrl ++ (inputs.location ++ (promptAfterLocation ++
    (inputs.goal ++ (promptAfterGoal ++ (inputs.language ++
    (promptStructureIntro ++ (keywordIdeasHeading ++
    (promptAdGroupSection ++ (priorityKeywordsHeading ++
    (promptPrioritySection ++ (negativeKeywordsHeading ++
    promptNegativeSection)))))))))))))))

def emptyResponseMsg : String := "Received an empty response from the AI. Please try again."

def requestErrorMsg : String := "An error occurred while generating keywords. Please check the console for details and try again."

/-- `handleFormSubmit` (source lines 122-156).  The markdown renderer
(`marked.parse`) and the sanitizer (`DOMPurify.sanitize`) are passed in as
functions; the network call's outcome is an explicit input.  Returns the
updated UI state together with the list of prompts sent to the generation
API during the run (empty when the re-entrancy guard fires). -/
def handleFormSubmit (inputs : FormInputs) (parseMarkdown sanitize : String → String)
    (outcome : ApiOutcome) (st : UIState) : UIState × List String :=
  if st.isLoading then (st, [])
  else
    let st1 := setLoading true st
    let st2 := { st1 with exportHidden := true, placeholderHidden := true, resultsHTML := "" }
    let prompt := buildPrompt inputs
    let st3 :=
      match outcome with
      | ApiOutcome.ok t =>
        match t with
        | some md =>
          if md = "" then displayError emptyResponseMsg st2
          else { st2 with resultsHTML := sanitize (parseMarkdown md), exportHidden := false }
        | none => displayError emptyResponseMsg st2
      | ApiOutcome.err => displayError requestErrorMsg st2
    (setLoading false st3, [prompt])

/-- A character the CSV escaping treats as special: the regex
`("|,|\n)` of source line 213. -/
def isCsvSpecial (c : Char) : Bool :=
  c = '"' || c = ',' || c = '\n'

/-- `cell.replace(/"/g, a doubled quote)` (source line 212), on the cell's
character list. -/
def escapeQuotes : List Char → List Char
  | [] => []
  | c :: cs => if c = '"' then '"' :: '"' :: escapeQuotes cs else c :: escapeQuotes cs

/-- `newCell.search(/("|,|\n)/g) >= 0` (source line 213). -/
def needsQuoting (s : List Char) : Bool :=
  s.any isCsvSpecial

/-- The per-cell CSV escaping of source lines 211-216: double every double
quote, then wrap the result in double quotes when it still contains a
quote, a comma, or a newline. -/
def escapeCell (s : List Char) : List Char :=
  let d := escapeQuotes s
  if needsQuoting d then '"' :: (d ++ ['"']) else d

/-- `Array.prototype.join` with a separator, on character lists. -/
def joinWith (sep : List Char) : List (List Char) → List Char
  | [] => []
  | [x] => x
  | x :: xs => x ++ (sep ++ joinWith sep xs)

/-- One CSV line: the escaped cells joined with commas (source line 217). -/
def rowJoin (row : List (List Char)) : List Char :=
  joinWith [','] (row.map escapeCell)

/-- The full CSV text: lines joined with a newline (source lines 210-218). -/
def csvContent (data : List (List (List Char))) : List Char :=
  joinWith ['\n'] (data.map rowJoin)

/-- Reader mode for the CSV parser: outside quotes, inside a quoted
field, or just after a quote seen inside a quoted field (which is either
the closing quote or the first half of a doubled literal quote). -/
inductive CsvMode where
  | plain
  | quoted
  | closeQ
deriving DecidableEq, Repr

/-- A standard CSV reader, used to state the round-trip property of the
escaping.  State: remaining input, the mode, the current field's
characters in reverse, and the completed fields of the current record in
reverse.  A comma outside quotes ends a field, a newline outside quotes
ends a record, a doubled quote inside quotes denotes a literal quote. -/
def csvRead : List Char → CsvMode → List Char → List (List Char) → List (List (List Char))
  | [], _, f, r => [(f.reverse :: r).reverse]
  | c :: cs, mode, f, r =>
    match mode with
    | CsvMode.quoted =>
      if c = '"' then csvRead cs CsvMode.closeQ f r
      else csvRead cs CsvMode.quoted (c :: f) r
    | CsvMode.closeQ =>
      if c = '"' then csvRead cs CsvMode.quoted ('"' :: f) r
      else if c = ',' then csvRead cs CsvMode.plain [] (f.reverse :: r)
      else if c = '\n' then (f.reverse :: r).reverse :: csvRead cs CsvMode.plain [] []
      else csvRead cs CsvMode.plain (c :: f) r
    | CsvMode.plain =>
      if c = ',' then csvRead cs CsvMode.plain [] (f.reverse :: r)
      else if c = '\n' then (f.reverse :: r).reverse :: csvRead cs CsvMode.plain [] []
      else if c = '"' then csvRead cs CsvMode.quoted f r
      else csvRead cs CsvMode.plain (c :: f) r

/-- Parse a CSV text into its records of fields. -/
def csvParse (s : List Char) : List (List (List Char)) :=
  csvRead s CsvMode.plain [] []

def adGroupMark : String := "Ad Group:"

/-- Modelled from the spec: the JavaScript builtin
`String.prototype.startsWith` (platform builtin, not repository source). -/
def strStartsWith (s mark : String) : Bool :=
  mark.data.isPrefixOf s.data

/-- Remove leading and trailing whitespace from a character list. -/
def trimChars (s : List Char) : List Char :=
  ((s.dropWhile Char.isWhitespace).reverse.dropWhile Char.isWhitespace).reverse

/-- Modelled from the spec: the JavaScript builtin `String.prototype.trim`
(platform builtin, not repository source). -/
def strTrim (s : String) : String :=
  String.mk (trimChars s.data)

/-- The trimmed `th` texts of a table (source lines 190 and 237). -/
def headerRowOf (t : DomElement) : List String :=
  t.headerCells.map strTrim

/-- The trimmed `td` rows of a table's body, keeping only rows with at
least one `td` (source lines 194-200). -/
def bodyRowsOf (t : DomElement) : List (List String) :=
  (t.bodyRows.map (fun r => r.map strTrim)).filter (fun r => r.length > 0)

/-- The scraping loop of `exportKeywordsToCSV` (source lines 183-203):
walk the rendered elements; at each `h4` whose text starts with
`Ad Group:` whose next sibling is a table, capture the header cells while
the captured header list is still empty, then append the table's body
rows.  `headers` and `data` are the two mutable arrays of the source. -/
def csvScan : List DomElement → List String → List (List String) → List (List String)
  | [], _, data => data
  | el :: rest, headers, data =>
    if el.tag = DomTag.h4 ∧ strStartsWith el.text adGroupMark = true then
      match rest with
      | t :: _ =>
        if t.tag = DomTag.table then
          if headers.length = 0 then
            csvScan rest (headerRowOf t) ((data ++ [headerRowOf t]) ++ bodyRowsOf t)
          else
            csvScan rest headers (data ++ bodyRowsOf t)
        else csvScan rest headers data
      | [] => csvScan rest headers data
    else csvScan rest headers data

/-- The rows accumulated by the CSV export for a rendered document. -/
def collectCSVData (doc : List DomElement) : List (List String) :=
  csvScan doc [] []

def csvNoDataMsg : String := "No keyword data found to export."

def csvFileName : String := "keyword_ideas.csv"

def csvMime : String := "text/csv;charset=utf-8;"

/-- The CSV text of the export, at `String` level: each row's cells are
escaped and joined with commas, rows joined with newlines. -/
def csvContentOf (data : List (List String)) : String :=
  String.mk (csvContent (data.map (fun row => row.map String.data)))

/-- `exportKeywordsToCSV` (source lines 179-221). -/
def exportKeywordsToCSV (doc : List DomElement) : ExportResult :=
  let data := collectCSVData doc
  if data.length ≤ 1 then ExportResult.alerted csvNoDataMsg
  else ExportResult.downloaded (csvContentOf data) csvFileName csvMime

/-- The tables that are the immediate next sibling of an `h4` heading
whose text starts with `Ad Group:`, in document order. -/
def adGroupTables : List DomElement → List DomElement
  | [] => []
  | el :: rest =>
    if el.tag = DomTag.h4 ∧ strStartsWith el.text adGroupMark = true then
      match rest with
      | t :: _ => if t.tag = DomTag.table then t :: adGroupTables rest else adGroupTables rest
      | [] => adGroupTables rest
    else adGroupTables rest

/-- The body rows of all matching tables, in order. -/
def allBodyRows (doc : List DomElement) : List (List String) :=
  (adGroupTables doc).foldr (fun t acc => bodyRowsOf t ++ acc) []

/-- Modelled from the spec: the rows the CSV extractor is specified to
collect — the header cells read once, from the first table following an
`Ad Group:` heading, as the first output row, then the body rows of every
such table.  Stated for comparison with `collectCSVData`. -/
def specCollectCSV (doc : List DomElement) : List (List String) :=
  (match (adGroupTables doc).head? with
   | some t => [headerRowOf t]
   | none => []) ++ allBodyRows doc

def priorityNoDataMsg : String := "No priority keywords found to export."

def jsonFileName : String := "priority_keywords.json"

def jsonMime : String := "application/json;charset=utf-8;"

/-- JavaScript object assignment `obj[k] = v` on a flat string-keyed
object kept as an ordered association list: an existing key keeps its
position and gets the new value, a new key is appended. -/
def objAssign : List (String × String) → String → String → List (String × String)
  | [], k, v => [(k, v)]
  | (k0, v0) :: rest, k, v =>
    if k0 = k then (k0, v) :: rest else (k0, v0) :: objAssign rest k v

/-- One JSON row object (source lines 240-246): assign, for each header in
order, the trimmed text of the cell at the same index. -/
def buildRowObj (headers cells : List String) : List (String × String) :=
  (List.zip headers cells).foldl (fun obj p => objAssign obj p.1 (strTrim p.2)) []

/-- The row loop of `exportPriorityKeywordsToJSON` (source lines 238-248):
a body row contributes an object exactly when its `td` count equals the
header count. -/
def jsonRows (headers : List String) : List (List String) → List (List (String × String))
  | [] => []
  | row :: rest =>
    if row.length = headers.length then
      buildRowObj headers row :: jsonRows headers rest
    else jsonRows headers rest

/-- Source line 228: the first `h3` whose trimmed text is exactly
`Priority Keywords`; returns the elements after it, so its
`nextElementSibling` is the head of the returned list. -/
def findPriorityAfter : List DomElement → Option (List DomElement)
  | [] => none
  | el :: rest =>
    if el.tag = DomTag.h3 ∧ strTrim el.text = priorityKeywordsHeading then some rest
    else findPriorityAfter rest

/-- The data rows gathered after the priority heading (source lines
235-249): nothing unless the next sibling is a table. -/
def jsonDataFrom (rest : List DomElement) : List (List (String × String)) :=
  match rest with
  | t :: _ => if t.tag = DomTag.table then jsonRows (headerRowOf t) t.bodyRows else []
  | [] => []

/-- The rows the JSON export gathers for a rendered document. -/
def jsonData (doc : List DomElement) : List (List (String × String)) :=
  match findPriorityAfter doc with
  | some rest => jsonDataFrom rest
  | none => []

def hexDigitChar (n : Nat) : Char :=
  if n < 10 then Char.ofNat (48 + n) else Char.ofNat (87 + n)

/-- Modelled from the spec: the string escaping of the platform builtin
`JSON.stringify` (not part of the repository's source). -/
def jsonEscChar (c : Char) : List Char :=
  if c = '"' then ['\\', '"']
  else if c = '\\' then ['\\', '\\']
  else if c = '\x08' then ['\\', 'b']
  else if c = '\x09' then ['\\', 't']
  else if c = '\x0a' then ['\\', 'n']
  else if c = '\x0c' then ['\\', 'f']
  else if c = '\x0d' then ['\\', 'r']
  else if c.toNat < 32 then ['\\', 'u', '0', '0', hexDigitChar (c.toNat / 16), hexDigitChar (c.toNat % 16)]
  else [c]

/-- A JSON string literal for `s`. -/
def jsonQuote (s : String) : String :=
  String.mk ('"' :: s.data.foldr (fun c acc => jsonEscChar c ++ acc) ['"'])

def jsonObjIndent : String := "    "

def jsonKVSep : String := ": "

def jsonLineSep : String := ",\n"

def jsonEmptyObj : String := "\x7b\x7d"

def jsonObjOpen : String := "\x7b\n"

def jsonObjClose : String := "\n  \x7d"

/-- One row object pretty-printed at array depth with a 2-space indent. -/
def jsonObjStr (obj : List (String × String)) : String :=
  match obj with
  | [] => jsonEmptyObj
  | _ =>
    jsonObjOpen ++
      String.intercalate jsonLineSep
        (obj.map (fun p => jsonObjIndent ++ (jsonQuote p.1 ++ (jsonKVSep ++ jsonQuote p.2)))) ++
      jsonObjClose

def jsonArrOpen : String := "[\n"

def jsonItemIndent : String := "  "

def jsonArrClose : String := "\n]"

/-- Modelled from the spec: `JSON.stringify(data, null, 2)` for an array
of flat string-keyed objects (platform builtin, not repository source). -/
def jsonStringify (data : List (List (String × String))) : String :=
  match data with
  | [] => "[]"
  | _ =>
    jsonArrOpen ++
      String.intercalate jsonLineSep (data.map (fun o => jsonItemIndent ++ jsonObjStr o)) ++
      jsonArrClose

/-- `exportPriorityKeywordsToJSON` (source lines 226-258). -/
def exportPriorityKeywordsToJSON (doc : List DomElement) : ExportResult :=
  match findPriorityAfter doc with
  | none => ExportResult.alerted priorityNoDataMsg
  | some rest =>
    let data := jsonDataFrom rest
    if data = [] then ExportResult.alerted priorityNoDataMsg
    else ExportResult.downloaded (jsonStringify data) jsonFileName jsonMime

/-- `needle` occurs verbatim inside `hay`. -/
def containsStr (hay needle : String) : Prop :=
  ∃ pre post, hay = pre ++ (needle ++ post)

/-! ## Concrete fixtures used by witnesses and counterexamples -/

/-- Sample form inputs (the end-to-end scenario of the spec). -/
def inputsW : FormInputs :=
  ⟨"plumbing", "example.com", "Austin", "Leads", "English"⟩

/-- The page's idle UI state: not loading, empty results, exports hidden. -/
def stIdle : UIState :=
  { isLoading := false
    generateBtnDisabled := false
    spinnerHidden := true
    btnText := generateLabel
    placeholderHidden := false
    resultsHTML := ""
    exportHidden := true }

/-- A UI state in which a generation is already in progress. -/
def stBusy : UIState :=
  { stIdle with
    isLoading := true
    generateBtnDisabled := true
    spinnerHidden := false
    btnText := generatingLabel }

/-! ## Helper lemmas -/

theorem containsStr_here (a n b : String) : containsStr (a ++ (n ++ b)) n :=
  ⟨a, b, rfl⟩

theorem containsStr_shift (a t n : String) (h : containsStr t n) :
    containsStr (a ++ t) n := by
  obtain ⟨p, q, hp⟩ := h
  exact ⟨a ++ p, q, by rw [hp]; exact (String.append_assoc a p (n ++ q)).symm⟩

theorem csvScan_no_h4 (doc : List DomElement) (headers : List String)
    (data : List (List String)) (h : ∀ el ∈ doc, el.tag ≠ DomTag.h4) :
    csvScan doc headers data = data := by
  induction doc generalizing headers data with
  | nil => rfl
  | cons el rest ih =>
    have hel : el.tag ≠ DomTag.h4 := h el (List.mem_cons_self el rest)
    have hrest : ∀ e ∈ rest, e.tag ≠ DomTag.h4 := fun e he => h e (List.mem_cons_of_mem el he)
    unfold csvScan
    rw [if_neg (fun hc => hel hc.1)]
    exact ih headers data hrest

theorem findPriorityAfter_no_h3 (doc : List DomElement)
    (h : ∀ el ∈ doc, el.tag ≠ DomTag.h3) :
    findPriorityAfter doc = none := by
  induction doc with
  | nil => rfl
  | cons el rest ih =>
    have hel : el.tag ≠ DomTag.h3 := h el (List.mem_cons_self el rest)
    have hrest : ∀ e ∈ rest, e.tag ≠ DomTag.h3 := fun e he => h e (List.mem_cons_of_mem el he)
    unfold findPriorityAfter
    rw [if_neg (fun hc => hel hc.1)]
    exact ih hrest

theorem jsonRows_filter_map (headers : List String) (rows : List (List String)) :
    jsonRows headers rows =
      (rows.filter (fun r => r.length == headers.length)).map
        (fun r => buildRowObj headers r) := by
  induction rows with
  | nil => rfl
  | cons row rest ih =>
    by_cases h : row.length = headers.length
    · simp [jsonRows, h, ih]
    · simp [jsonRows, h, ih]

/-! ## Claim theorems -/

/-- C8: a submit event arriving while `isLoading` is set returns at once:
the UI state is unchanged and no generation request is issued. -/
theorem reentrant_submit_noop (inputs : FormInputs) (p s : String → String)
    (o : ApiOutcome) (st : UIState) (h : st.isLoading = true) :
    handleFormSubmit inputs p s o st = (st, []) := by
  simp [handleFormSubmit, h]

/-- Witness for C8 at a concrete busy state and a concrete outcome. -/
theorem reentrant_submit_noop_witness :
    handleFormSubmit inputsW (fun t => t) (fun t => t) ApiOutcome.err stBusy = (stBusy, []) :=
  reentrant_submit_noop inputsW (fun t => t) (fun t => t) ApiOutcome.err stBusy rfl

/-- C9: every run of the submit handler that passes the re-entrancy guard
ends with the loading flag cleared, whatever the API outcome. -/
theorem loading_flag_restored (inputs : FormInputs) (p s : String → String)
    (o : ApiOutcome) (st : UIState) (h : st.isLoading = false) :
    ((handleFormSubmit inputs p s o st).1).isLoading = false := by
  simp [handleFormSubmit, h, setLoading]

/-- Witness for C9 at a concrete idle state and a failing outcome. -/
theorem loading_flag_restored_witness :
    ((handleFormSubmit inputsW (fun t => t) (fun t => t) ApiOutcome.err stIdle).1).isLoading = false :=
  loading_flag_restored inputsW (fun t => t) (fun t => t) ApiOutcome.err stIdle rfl

/-- C1: after a guarded run, the results container holds either the
sanitizer's output on the renderer's output on the model text — for every
renderer and sanitizer — or one of the two fixed error fragments; raw
model text is never assigned. -/
theorem model_output_sanitized (inputs : FormInputs) (p s : String → String)
    (o : ApiOutcome) (st : UIState) (h : st.isLoading = false) :
    (∃ md, o = ApiOutcome.ok (some md) ∧ md ≠ "" ∧
      ((handleFormSubmit inputs p s o st).1).resultsHTML = s (p md)) ∨
    ((handleFormSubmit inputs p s o st).1).resultsHTML = errorHTML emptyResponseMsg ∨
    ((handleFormSubmit inputs p s o st).1).resultsHTML = errorHTML requestErrorMsg := by
  cases o with
  | err =>
    right; right
    simp [handleFormSubmit, h, setLoading, displayError]
  | ok t =>
    cases t with
    | none =>
      right; left
      simp [handleFormSubmit, h, setLoading, displayError]
    | some md =>
      by_cases hmd : md = ""
      · right; left
        simp [handleFormSubmit, h, hmd, setLoading, displayError]
      · left
        exact ⟨md, rfl, hmd, by simp [handleFormSubmit, h, hmd, setLoading]⟩

/-- Witness for C1 at a concrete successful outcome and concrete
renderer/sanitizer functions. -/
theorem model_output_sanitized_witness :
    (∃ md, ApiOutcome.ok (some "hello") = ApiOutcome.ok (some md) ∧ md ≠ "" ∧
      ((handleFormSubmit inputsW (fun t => t) (fun t => t)
          (ApiOutcome.ok (some "hello")) stIdle).1).resultsHTML = md) ∨
    ((handleFormSubmit inputsW (fun t => t) (fun t => t)
        (ApiOutcome.ok (some "hello")) stIdle).1).resultsHTML = errorHTML emptyResponseMsg ∨
    ((handleFormSubmit inputsW (fun t => t) (fun t => t)
        (ApiOutcome.ok (some "hello")) stIdle).1).resultsHTML = errorHTML requestErrorMsg :=
  model_output_sanitized inputsW (fun t => t) (fun t => t)
    (ApiOutcome.ok (some "hello")) stIdle rfl

/-- C7 counterexample: at a concrete idle state, the empty-model-output
path and the thrown-error path put two different messages into the
results container, so the two error paths are not merged into one and the
same user-visible message. -/
theorem error_messages_differ_cex :
    ((handleFormSubmit inputsW (fun t => t) (fun t => t)
        (ApiOutcome.ok (some "")) stIdle).1).resultsHTML ≠
    ((handleFormSubmit inputsW (fun t => t) (fun t => t)
        ApiOutcome.err stIdle).1).resultsHTML := by
  decide

/-- C7 amended: both failure paths replace the results area with an
in-page error fragment and hide the export controls, but through two
distinct messages rather than one and the same. -/
theorem error_paths_display (inputs : FormInputs) (p s : String → String)
    (st : UIState) (h : st.isLoading = false) :
    ((handleFormSubmit inputs p s (ApiOutcome.ok (some "")) st).1).resultsHTML
        = errorHTML emptyResponseMsg ∧
    ((handleFormSubmit inputs p s (ApiOutcome.ok none) st).1).resultsHTML
        = errorHTML emptyResponseMsg ∧
    ((handleFormSubmit inputs p s ApiOutcome.err st).1).resultsHTML
        = errorHTML requestErrorMsg ∧
    ((handleFormSubmit inputs p s (ApiOutcome.ok (some "")) st).1).exportHidden = true ∧
    ((handleFormSubmit inputs p s ApiOutcome.err st).1).exportHidden = true ∧
    emptyResponseMsg ≠ requestErrorMsg := by
  refine ⟨?_, ?_, ?_, ?_, ?_, ?_⟩
  · simp [handleFormSubmit, h, setLoading, displayError]
  · simp [handleFormSubmit, h, setLoading, displayError]
  · simp [handleFormSubmit, h, setLoading, displayError]
  · simp [handleFormSubmit, h, setLoading, displayError]
  · simp [handleFormSubmit, h, setLoading, displayError]
  · decide

/-- Witness for the amended C7 at the concrete idle state. -/
theorem error_paths_display_witness :
    ((handleFormSubmit inputsW (fun t => t) (fun t => t)
        (ApiOutcome.ok (some "")) stIdle).1).resultsHTML = errorHTML emptyResponseMsg ∧
    ((handleFormSubmit inputsW (fun t => t) (fun t => t)
        (ApiOutcome.ok none) stIdle).1).resultsHTML = errorHTML emptyResponseMsg ∧
    ((handleFormSubmit inputsW (fun t => t) (fun t => t)
        ApiOutcome.err stIdle).1).resultsHTML = errorHTML requestErrorMsg ∧
    ((handleFormSubmit inputsW (fun t => t) (fun t => t)
        (ApiOutcome.ok (some "")) stIdle).1).exportHidden = true ∧
    ((handleFormSubmit inputsW (fun t => t) (fun t => t)
        ApiOutcome.err stIdle).1).exportHidden = true ∧
    emptyResponseMsg ≠ requestErrorMsg :=
  error_paths_display inputsW (fun t => t) (fun t => t) stIdle rfl

/-- C4: whenever the scraping loop accumulates at most one row (no data
row beyond a possible header row), the CSV export raises the no-data
alert and triggers no download. -/
theorem csv_refusal_when_no_rows (doc : List DomElement)
    (h : (collectCSVData doc).length ≤ 1) :
    exportKeywordsToCSV doc = ExportResult.alerted csvNoDataMsg := by
  unfold exportKeywordsToCSV
  simp [h]

/-- Witness for C4 at the empty rendered document. -/
theorem csv_refusal_when_no_rows_witness :
    exportKeywordsToCSV [] = ExportResult.alerted csvNoDataMsg :=
  csv_refusal_when_no_rows [] (by decide)

/-- C10: the CSV extractor reads only `h4` headings and the JSON extractor
only `h3` headings: a document without any `h4` yields no CSV rows even if
other elements carry the `Ad Group:` text, and a document without any `h3`
makes the JSON export refuse even if other elements read
`Priority Keywords`. -/
theorem heading_level_restriction (docA docB : List DomElement)
    (hA : ∀ el ∈ docA, el.tag ≠ DomTag.h4)
    (hB : ∀ el ∈ docB, el.tag ≠ DomTag.h3) :
    collectCSVData docA = [] ∧
    exportPriorityKeywordsToJSON docB = ExportResult.alerted priorityNoDataMsg := by
  constructor
  · exact csvScan_no_h4 docA [] [] hA
  · unfold exportPriorityKeywordsToJSON
    rw [findPriorityAfter_no_h3 docB hB]

/-- An `h3` carrying the CSV marker text, followed by a data table. -/
def docCsvH3 : List DomElement :=
  [⟨DomTag.h3, "Ad Group: Plumbing", [], []⟩,
   ⟨DomTag.table, "", ["Keyword"], [["emergency plumber"]]⟩]

/-- An `h4` carrying the JSON heading text, followed by a data table. -/
def docJsonH4 : List DomElement :=
  [⟨DomTag.h4, "Priority Keywords", [], []⟩,
   ⟨DomTag.table, "", ["Priority Keyword", "Reason"], [["a", "b"]]⟩]

/-- Witness for C10: matching text at the wrong heading level contributes
nothing to either export. -/
theorem heading_level_restriction_witness :
    collectCSVData docCsvH3 = [] ∧
    exportPriorityKeywordsToJSON docJsonH4 = ExportResult.alerted priorityNoDataMsg :=
  heading_level_restriction docCsvH3 docJsonH4
    (by intro el hel; fin_cases hel <;> decide)
    (by intro el hel; fin_cases hel <;> decide)

/-- C5: a body row of the priority table contributes an object exactly
when its cell count equals the header count (the row list equals the
filtered, mapped body rows), and a document on which zero rows result
makes the JSON export refuse with the no-data alert. -/
theorem json_row_filtering (headers : List String) (rows : List (List String))
    (doc : List DomElement) (h : jsonData doc = []) :
    jsonRows headers rows =
      (rows.filter (fun r => r.length == headers.length)).map
        (fun r => buildRowObj headers r) ∧
    exportPriorityKeywordsToJSON doc = ExportResult.alerted priorityNoDataMsg := by
  constructor
  · exact jsonRows_filter_map headers rows
  · unfold exportPriorityKeywordsToJSON
    unfold jsonData at h
    cases hf : findPriorityAfter doc with
    | none => rfl
    | some rest =>
      rw [hf] at h
      simp only [] at h
      simp [h]

/-- Heading present but followed by no table: zero rows result. -/
def docJsonNoTable : List DomElement :=
  [⟨DomTag.h3, "Priority Keywords", [], []⟩]

/-- Witness for C5: a two-cell row against a one-header table is skipped,
and the no-table document yields the refusal alert. -/
theorem json_row_filtering_witness :
    jsonRows ["Priority Keyword"] [["plumber near me"], ["a", "b"]] =
      (([["plumber near me"], ["a", "b"]].filter
          (fun r => r.length == ["Priority Keyword"].length)).map
        (fun r => buildRowObj ["Priority Keyword"] r)) ∧
    exportPriorityKeywordsToJSON docJsonNoTable = ExportResult.alerted priorityNoDataMsg :=
  json_row_filtering ["Priority Keyword"] [["plumber near me"], ["a", "b"]]
    docJsonNoTable (by decide)

/-- C6: the prompt contains each of the five form values verbatim and the
three fixed section headings. -/
theorem buildPrompt_contains_all (i : FormInputs) :
    containsStr (buildPrompt i) i.service ∧
    containsStr (buildPrompt i) i.url ∧
    containsStr (buildPrompt i) i.location ∧
    containsStr (buildPrompt i) i.goal ∧
    containsStr (buildPrompt i) i.language ∧
    containsStr (buildPrompt i) ("Keyword Ideas") ∧
    containsStr (buildPrompt i) ("Priority Keywords") ∧
    containsStr (buildPrompt i) ("Negative Keywords") := by
  refine ⟨?_, ?_, ?_, ?_, ?_, ?_, ?_, ?_⟩ <;>
    (simp only [buildPrompt]
     repeat (first | exact containsStr_here _ _ _ | apply containsStr_shift))

/-! ## CSV escaping round-trip (C2) -/

theorem csvRead_nil (m : CsvMode) (f : List Char) (r : List (List Char)) :
    csvRead [] m f r = [(f.reverse :: r).reverse] := rfl

theorem csvRead_plain_comma (cs : List Char) (f : List Char) (r : List (List Char)) :
    csvRead (',' :: cs) CsvMode.plain f r = csvRead cs CsvMode.plain [] (f.reverse :: r) := rfl

theorem csvRead_plain_nl (cs : List Char) (f : List Char) (r : List (List Char)) :
    csvRead ('\n' :: cs) CsvMode.plain f r =
      (f.reverse :: r).reverse :: csvRead cs CsvMode.plain [] [] := rfl

theorem csvRead_plain_quote (cs : List Char) (f : List Char) (r : List (List Char)) :
    csvRead ('"' :: cs) CsvMode.plain f r = csvRead cs CsvMode.quoted f r := rfl

theorem csvRead_plain_other (c : Char) (cs : List Char) (f : List Char) (r : List (List Char))
    (h1 : c ≠ ',') (h2 : c ≠ '\n') (h3 : c ≠ '"') :
    csvRead (c :: cs) CsvMode.plain f r = csvRead cs CsvMode.plain (c :: f) r := by
  simp [csvRead, h1, h2, h3]

theorem csvRead_quoted_quote (cs : List Char) (f : List Char) (r : List (List Char)) :
    csvRead ('"' :: cs) CsvMode.quoted f r = csvRead cs CsvMode.closeQ f r := rfl

theorem csvRead_quoted_other (c : Char) (cs : List Char) (f : List Char) (r : List (List Char))
    (h : c ≠ '"') :
    csvRead (c :: cs) CsvMode.quoted f r = csvRead cs CsvMode.quoted (c :: f) r := by
  simp [csvRead, h]

theorem csvRead_closeQ_quote (cs : List Char) (f : List Char) (r : List (List Char)) :
    csvRead ('"' :: cs) CsvMode.closeQ f r = csvRead cs CsvMode.quoted ('"' :: f) r := rfl

theorem csvRead_closeQ_eq_plain (rest : List Char) (f : List Char) (r : List (List Char))
    (h : rest.head? ≠ some '"') :
    csvRead rest CsvMode.closeQ f r = csvRead rest CsvMode.plain f r := by
  cases rest with
  | nil => rfl
  | cons c cs =>
    have hc : c ≠ '"' := fun hh => h (by rw [hh]; rfl)
    by_cases h1 : c = ','
    · subst h1; rfl
    · by_cases h2 : c = '\n'
      · subst h2; rfl
      · simp [csvRead, hc, h1, h2]

theorem escapeQuotes_no_quote : ∀ (s : List Char), (∀ c ∈ s, c ≠ '"') →
    escapeQuotes s = s
  | [], _ => rfl
  | c :: cs, h => by
    have hc : c ≠ '"' := h c (List.mem_cons_self c cs)
    simp [escapeQuotes, hc,
      escapeQuotes_no_quote cs (fun x hx => h x (List.mem_cons_of_mem c hx))]

theorem needsQuoting_escapeQuotes : ∀ (s : List Char),
    needsQuoting (escapeQuotes s) = needsQuoting s
  | [] => rfl
  | c :: cs => by
    have ih := needsQuoting_escapeQuotes cs
    simp only [needsQuoting] at ih ⊢
    by_cases hc : c = '"'
    · subst hc
      simp [escapeQuotes, isCsvSpecial]
    · simp [escapeQuotes, hc, List.any_cons, ih]

theorem csvRead_plain_consume (s : List Char) (rest : List Char) (f : List Char)
    (r : List (List Char)) (h : ∀ c ∈ s, isCsvSpecial c = false) :
    csvRead (s ++ rest) CsvMode.plain f r = csvRead rest CsvMode.plain (s.reverse ++ f) r := by
  induction s generalizing f with
  | nil => rfl
  | cons c cs ih =>
    have hc : isCsvSpecial c = false := h c (List.mem_cons_self c cs)
    have hcs : ∀ x ∈ cs, isCsvSpecial x = false := fun x hx => h x (List.mem_cons_of_mem c hx)
    have h3 : c ≠ '"' := fun hh => by subst hh; simp [isCsvSpecial] at hc
    have h1 : c ≠ ',' := fun hh => by subst hh; simp [isCsvSpecial] at hc
    have h2 : c ≠ '\n' := fun hh => by subst hh; simp [isCsvSpecial] at hc
    rw [List.cons_append, csvRead_plain_other c _ f r h1 h2 h3, ih (c :: f) hcs]
    simp

theorem csvRead_quoted_consume (s : List Char) (rest : List Char) (f : List Char)
    (r : List (List Char)) :
    csvRead (escapeQuotes s ++ ('"' :: rest)) CsvMode.quoted f r =
      csvRead rest CsvMode.closeQ (s.reverse ++ f) r := by
  induction s generalizing f with
  | nil => rfl
  | cons c cs ih =>
    by_cases hq : c = '"'
    · subst hq
      have e : escapeQuotes ('"' :: cs) = '"' :: '"' :: escapeQuotes cs := by
        simp [escapeQuotes]
      rw [e, List.cons_append, List.cons_append, csvRead_quoted_quote,
        csvRead_closeQ_quote, ih ('"' :: f)]
      simp
    · have e : escapeQuotes (c :: cs) = c :: escapeQuotes cs := by
        simp [escapeQuotes, hq]
      rw [e, List.cons_append, csvRead_quoted_other c _ f r hq, ih (c :: f)]
      simp

theorem csvRead_consume_cell (s : List Char) (rest : List Char) (f : List Char)
    (r : List (List Char)) (h : rest.head? ≠ some '"') :
    csvRead (escapeCell s ++ rest) CsvMode.plain f r =
      csvRead rest CsvMode.plain (s.reverse ++ f) r := by
  by_cases hq : needsQuoting (escapeQuotes s) = true
  · have e : escapeCell s = '"' :: (escapeQuotes s ++ ['"']) := by
      simp [escapeCell, hq]
    rw [e, List.cons_append, csvRead_plain_quote, List.append_assoc,
      show ['"'] ++ rest = '"' :: rest from rfl, csvRead_quoted_consume]
    exact csvRead_closeQ_eq_plain rest _ r h
  · have hq2 : needsQuoting (escapeQuotes s) = false := by
      simpa using hq
    have hs : needsQuoting s = false := by rw [← needsQuoting_escapeQuotes]; exact hq2
    have hall : ∀ c ∈ s, isCsvSpecial c = false := by
      simpa [needsQuoting, List.any_eq_false] using hs
    have hnoq : ∀ c ∈ s, c ≠ '"' := by
      intro c hc hh
      have := hall c hc
      subst hh
      simp [isCsvSpecial] at this
    have e : escapeCell s = s := by
      simp [escapeCell, hq2, hs, escapeQuotes_no_quote s hnoq]
    rw [e]
    exact csvRead_plain_consume s rest f r hall

theorem rowJoin_single (c : List Char) : rowJoin [c] = escapeCell c := rfl

theorem rowJoin_cons (c c2 : List Char) (cs : List (List Char)) :
    rowJoin (c :: c2 :: cs) = escapeCell c ++ (',' :: rowJoin (c2 :: cs)) := rfl

theorem csvRead_row_end : ∀ (row : List (List Char)), row ≠ [] →
    ∀ r, csvRead (rowJoin row) CsvMode.plain [] r = [r.reverse ++ row]
  | [], h, _ => absurd rfl h
  | [c], _, r => by
    rw [rowJoin_single, ← List.append_nil (escapeCell c),
      csvRead_consume_cell c [] [] r (by simp), csvRead_nil]
    simp
  | c :: c2 :: cs, _, r => by
    rw [rowJoin_cons, csvRead_consume_cell c _ [] r (by simp), csvRead_plain_comma,
      csvRead_row_end (c2 :: cs) (by simp) _]
    simp

theorem csvRead_row_nl : ∀ (row : List (List Char)), row ≠ [] →
    ∀ (cs : List Char) (r : List (List Char)),
      csvRead (rowJoin row ++ ('\n' :: cs)) CsvMode.plain [] r =
        (r.reverse ++ row) :: csvRead cs CsvMode.plain [] []
  | [], h, _, _ => absurd rfl h
  | [c], _, cs, r => by
    rw [rowJoin_single, csvRead_consume_cell c _ [] r (by simp), csvRead_plain_nl]
    simp
  | c :: c2 :: cs0, _, cs, r => by
    rw [rowJoin_cons, List.append_assoc,
      show (',' :: rowJoin (c2 :: cs0)) ++ ('\n' :: cs) = ',' :: (rowJoin (c2 :: cs0) ++ ('\n' :: cs)) from rfl,
      csvRead_consume_cell c _ [] r (by simp), csvRead_plain_comma,
      csvRead_row_nl (c2 :: cs0) (by simp) cs _]
    simp

theorem csv_roundtrip_aux : ∀ (data : List (List (List Char))), data ≠ [] →
    (∀ row ∈ data, row ≠ []) → csvParse (csvContent data) = data
  | [], h, _ => absurd rfl h
  | [row], _, h2 => by
    have hrow : row ≠ [] := h2 row (List.mem_cons_self row [])
    unfold csvParse
    rw [show csvContent [row] = rowJoin row from rfl, csvRead_row_end row hrow []]
    rfl
  | row :: d2 :: ds, _, h2 => by
    have hrow : row ≠ [] := h2 row (List.mem_cons_self row _)
    have h2b : ∀ x ∈ d2 :: ds, x ≠ [] := fun x hx => h2 x (List.mem_cons_of_mem row hx)
    have ih := csv_roundtrip_aux (d2 :: ds) (by simp) h2b
    unfold csvParse at ih ⊢
    rw [show csvContent (row :: d2 :: ds) = rowJoin row ++ ('\n' :: csvContent (d2 :: ds)) from rfl,
      csvRead_row_nl row hrow _ [], ih]
    rfl

/-- C2: the cell escaping doubles each quote and wraps the cell in quotes
exactly when the original cell contains a quote, a comma, or a newline;
and reading the produced CSV text back recovers every cell exactly. -/
theorem csv_escaping_roundtrip (s : List Char) (data : List (List (List Char)))
    (h1 : data ≠ []) (h2 : ∀ row ∈ data, row ≠ []) :
    escapeCell s =
      (if needsQuoting s then '"' :: (escapeQuotes s ++ ['"']) else escapeQuotes s) ∧
    csvParse (csvContent data) = data := by
  constructor
  · simp only [escapeCell, needsQuoting_escapeQuotes]
  · exact csv_roundtrip_aux data h1 h2

/-- Cells exercising all three special characters. -/
def csvDataW : List (List (List Char)) :=
  [[['h'], ['h', ',', '2']], [['x', '"', 'y'], ['a', '\n', 'b']]]

/-- Witness for C2 at a cell containing a comma and a two-row table whose
cells contain a comma, a quote and a newline. -/
theorem csv_escaping_roundtrip_witness :
    escapeCell ['a', ',', 'b'] =
      (if needsQuoting ['a', ',', 'b'] then
        '"' :: (escapeQuotes ['a', ',', 'b'] ++ ['"'])
      else escapeQuotes ['a', ',', 'b']) ∧
    csvParse (csvContent csvDataW) = csvDataW :=
  csv_escaping_roundtrip ['a', ',', 'b'] csvDataW (by decide) (by decide)

/-! ## CSV header capture (C3) -/

theorem adGroupTables_not_match (el : DomElement) (rest : List DomElement)
    (h : ¬(el.tag = DomTag.h4 ∧ strStartsWith el.text adGroupMark = true)) :
    adGroupTables (el :: rest) = adGroupTables rest := by
  rw [adGroupTables.eq_def]
  dsimp only
  rw [if_neg h]

theorem adGroupTables_match_nil (el : DomElement)
    (h : el.tag = DomTag.h4 ∧ strStartsWith el.text adGroupMark = true) :
    adGroupTables [el] = [] := by
  simp [adGroupTables, h]

theorem adGroupTables_match_table (el t : DomElement) (rest : List DomElement)
    (h : el.tag = DomTag.h4 ∧ strStartsWith el.text adGroupMark = true)
    (ht : t.tag = DomTag.table) :
    adGroupTables (el :: t :: rest) = t :: adGroupTables (t :: rest) := by
  simp [adGroupTables, h, ht]

theorem adGroupTables_match_nontable (el t : DomElement) (rest : List DomElement)
    (h : el.tag = DomTag.h4 ∧ strStartsWith el.text adGroupMark = true)
    (ht : ¬t.tag = DomTag.table) :
    adGroupTables (el :: t :: rest) = adGroupTables (t :: rest) := by
  simp [adGroupTables, h, ht]

theorem csvScan_not_match (el : DomElement) (rest : List DomElement)
    (headers : List String) (data : List (List String))
    (h : ¬(el.tag = DomTag.h4 ∧ strStartsWith el.text adGroupMark = true)) :
    csvScan (el :: rest) headers data = csvScan rest headers data := by
  rw [csvScan.eq_def]
  dsimp only
  rw [if_neg h]

theorem csvScan_match_nil (el : DomElement) (headers : List String)
    (data : List (List String))
    (h : el.tag = DomTag.h4 ∧ strStartsWith el.text adGroupMark = true) :
    csvScan [el] headers data = data := by
  simp [csvScan, h]

theorem csvScan_match_table_fresh (el t : DomElement) (rest : List DomElement)
    (data : List (List String))
    (h : el.tag = DomTag.h4 ∧ strStartsWith el.text adGroupMark = true)
    (ht : t.tag = DomTag.table) :
    csvScan (el :: t :: rest) [] data =
      csvScan (t :: rest) (headerRowOf t) ((data ++ [headerRowOf t]) ++ bodyRowsOf t) := by
  simp [csvScan, h, ht]

theorem csvScan_match_table_stale (el t : DomElement) (rest : List DomElement)
    (headers : List String) (data : List (List String))
    (h : el.tag = DomTag.h4 ∧ strStartsWith el.text adGroupMark = true)
    (ht : t.tag = DomTag.table) (hh : headers ≠ []) :
    csvScan (el :: t :: rest) headers data =
      csvScan (t :: rest) headers (data ++ bodyRowsOf t) := by
  have hl : ¬headers.length = 0 := by
    simpa [List.length_eq_zero] using hh
  simp [csvScan, h, ht, hl]

theorem csvScan_match_nontable (el t : DomElement) (rest : List DomElement)
    (headers : List String) (data : List (List String))
    (h : el.tag = DomTag.h4 ∧ strStartsWith el.text adGroupMark = true)
    (ht : ¬t.tag = DomTag.table) :
    csvScan (el :: t :: rest) headers data = csvScan (t :: rest) headers data := by
  simp [csvScan, h, ht]

theorem csvScan_with_headers : ∀ (doc : List DomElement) (headers : List String)
    (data : List (List String)), headers ≠ [] →
    csvScan doc headers data = data ++ allBodyRows doc
  | [], _, data, _ => by simp [csvScan, allBodyRows, adGroupTables]
  | el :: rest, headers, data, hh => by
    by_cases hm : el.tag = DomTag.h4 ∧ strStartsWith el.text adGroupMark = true
    · cases rest with
      | nil =>
        rw [csvScan_match_nil el headers data hm]
        simp [allBodyRows, adGroupTables_match_nil el hm]
      | cons t rest' =>
        by_cases ht : t.tag = DomTag.table
        · rw [csvScan_match_table_stale el t rest' headers data hm ht hh,
            csvScan_with_headers (t :: rest') headers _ hh]
          simp [allBodyRows, adGroupTables_match_table el t rest' hm ht, List.append_assoc]
        · rw [csvScan_match_nontable el t rest' headers data hm ht,
            csvScan_with_headers (t :: rest') headers data hh]
          simp [allBodyRows, adGroupTables_match_nontable el t rest' hm ht]
    · rw [csvScan_not_match el rest headers data hm,
        csvScan_with_headers rest headers data hh]
      simp [allBodyRows, adGroupTables_not_match el rest hm]

theorem csvScan_fresh : ∀ (doc : List DomElement) (data : List (List String)),
    (∀ t, (adGroupTables doc).head? = some t → t.headerCells ≠ []) →
    csvScan doc [] data = data ++ specCollectCSV doc
  | [], data, _ => by simp [csvScan, specCollectCSV, allBodyRows, adGroupTables]
  | el :: rest, data, h => by
    by_cases hm : el.tag = DomTag.h4 ∧ strStartsWith el.text adGroupMark = true
    · cases rest with
      | nil =>
        rw [csvScan_match_nil el [] data hm]
        simp [specCollectCSV, allBodyRows, adGroupTables_match_nil el hm]
      | cons t rest' =>
        by_cases ht : t.tag = DomTag.table
        · have hts : (adGroupTables (el :: t :: rest')).head? = some t := by
            rw [adGroupTables_match_table el t rest' hm ht]; rfl
          have hhc : t.headerCells ≠ [] := h t hts
          have hhr : headerRowOf t ≠ [] := by
            simpa [headerRowOf, List.map_eq_nil_iff] using hhc
          rw [csvScan_match_table_fresh el t rest' data hm ht,
            csvScan_with_headers (t :: rest') (headerRowOf t) _ hhr]
          simp [specCollectCSV, hts, allBodyRows,
            adGroupTables_match_table el t rest' hm ht, List.append_assoc]
        · have e := adGroupTables_match_nontable el t rest' hm ht
          rw [csvScan_match_nontable el t rest' [] data hm ht,
            csvScan_fresh (t :: rest') data (fun x hx => h x (by rw [e]; exact hx))]
          simp [specCollectCSV, allBodyRows, e]
    · have e := adGroupTables_not_match el rest hm
      rw [csvScan_not_match el rest [] data hm,
        csvScan_fresh rest data (fun x hx => h x (by rw [e]; exact hx))]
      simp [specCollectCSV, allBodyRows, e]

/-- A first matching table with no header cell, then a second matching
table carrying a header cell and a body row. -/
def docC3 : List DomElement :=
  [⟨DomTag.h4, "Ad Group: A", [], []⟩,
   ⟨DomTag.table, "", [], []⟩,
   ⟨DomTag.h4, "Ad Group: B", [], []⟩,
   ⟨DomTag.table, "", ["X"], [["1"]]⟩]

/-- C3 counterexample: when the first matching table has no header cells,
the loop emits an empty header row and then reads header cells again from
the second matching table, so the collected rows differ from the
specified read-the-headers-once behaviour. -/
theorem csv_header_capture_cex :
    collectCSVData docC3 = [[], ["X"], ["1"]] ∧
    specCollectCSV docC3 = [[], ["1"]] ∧
    collectCSVData docC3 ≠ specCollectCSV docC3 := by
  decide

/-- C3 amended: provided the first table following an `Ad Group:` `h4`
has at least one header cell, the CSV extractor collects exactly the
specified rows — that table's header cells once, as the first output row,
followed by the body rows of every matching table. -/
theorem csv_header_capture (doc : List DomElement)
    (h : ∀ t, (adGroupTables doc).head? = some t → t.headerCells ≠ []) :
    collectCSVData doc = specCollectCSV doc := by
  have := csvScan_fresh doc [] h
  simpa [collectCSVData] using this

/-- A matching heading followed by a regular two-column table. -/
def docAdW : List DomElement :=
  [⟨DomTag.h4, "Ad Group: Plumbing", [], []⟩,
   ⟨DomTag.table, "", ["Keyword", "CPC"], [["a", "b"], ["c", "d"]]⟩]

/-- The table of `docAdW`. -/
def tableW : DomElement :=
  ⟨DomTag.table, "", ["Keyword", "CPC"], [["a", "b"], ["c", "d"]]⟩

/-- Witness for the amended C3 at a concrete document. -/
theorem csv_header_capture_witness :
    collectCSVData docAdW = [["Keyword", "CPC"], ["a", "b"], ["c", "d"]] :=
  (csv_header_capture docAdW (by
    intro t ht
    have e : (adGroupTables docAdW).head? = some tableW := by decide
    rw [e] at ht
    injection ht with h2
    rw [← h2]
    decide)).trans (by decide)
